import Mathlib

/-!
Verification of the sas9api Python client (src/sas9api.py) against its
natural-language specification.

The Python module is a stateless collection of HTTP request-marshalling
functions.  We embed the pure request-building logic shallowly:

* Python strings are Lean `String`s; f-string interpolation is `++`.
* `url.strip()` is modelled by `pyStrip` (dropping Python's whitespace
  characters from both ends); `str.endswith` by `endswith`.
* Query-parameter dictionaries are insertion-ordered association lists
  `List (String × PyVal)` (Python 3.7+ dicts preserve insertion order, and
  all keys used by the module are distinct literals).
* Each endpoint function is embedded as a function producing a `Request`
  record: the method, assembled URL, parameter dict, raw body, JSON body and
  whether the default-server diagnostic notice was printed.
* The HTTP layer is abstracted by an `HttpOutcome` (a response with a status
  and an optionally-JSON-decodable body, or a transport error) and
  `make_request` is embedded as the response-handling function from outcome
  to a `PyResult` (value returned or exception propagated) plus the console
  log entries it prints.
-/

set_option autoImplicit false

/-- Python `str` whitespace characters relevant to `str.strip()` (ASCII
whitespace: space, tab, newline, carriage return, vertical tab, form feed). -/
def pyWhitespace (c : Char) : Bool :=
  c == ' ' || c == '\t' || c == '\n' || c == '\r' || c == '\x0B' || c == '\x0C'

/-- Model of Python `str.strip()`: drop whitespace from both ends. -/
def pyStrip (s : String) : String :=
  ⟨((s.toList.dropWhile pyWhitespace).reverse.dropWhile pyWhitespace).reverse⟩

/-- Model of Python `str.endswith(suffix)`. -/
def endswith (s suffix : String) : Bool :=
  decide (suffix.toList <:+ s.toList)

/-- Embedding of `assemble_url` (src/sas9api.py lines 53-75): if the stripped
url ends with "/" append the endpoint directly, else insert one "/".  Note the
check is on the stripped url but the concatenation uses the original url. -/
def assemble_url (url endpoint : String) : String :=
  if endswith (pyStrip url) "/" then url ++ endpoint else url ++ "/" ++ endpoint

/-- Auxiliary for the spec-side join: drop every trailing '/' of a string. -/
def dropTrailingSlashes (s : String) : String :=
  ⟨(s.toList.reverse.dropWhile (· == '/')).reverse⟩

/-- Spec-side definition, following the specification's words for the URL
Assembler: the joined result has exactly one separator at the join point
between base and endpoint, regardless of whether the base already ends with
one - i.e. the base with its trailing separators removed, one '/', then the
endpoint. -/
def oneSeparatorJoin (base endpoint : String) : String :=
  dropTrailingSlashes base ++ "/" ++ endpoint

theorem endswith_iff (s suffix : String) :
    endswith s suffix = true ↔ suffix.toList <:+ s.toList := by
  simp [endswith]

theorem string_eq_of_toList {a b : String} (h : a.toList = b.toList) : a = b := by
  cases a; cases b; simpa [String.toList] using congrArg String.mk h

theorem toList_append (a b : String) : (a ++ b).toList = a.toList ++ b.toList := rfl

/-- A list not ending in '/' is unchanged by dropping trailing slashes. -/
theorem dropTrailingSlashes_eq_self {s : String}
    (h : endswith s "/" = false) : dropTrailingSlashes s = s := by
  apply string_eq_of_toList
  show (s.toList.reverse.dropWhile (· == '/')).reverse = s.toList
  have hsuf : ¬ (['/'] <:+ s.toList) := by
    intro hc
    have he : endswith s "/" = true := by rw [endswith_iff]; exact hc
    rw [h] at he
    exact Bool.noConfusion he
  match hrev : s.toList.reverse with
  | [] =>
    have hnil : s.toList = [] := by
      simpa using congrArg List.reverse hrev
    simp only [List.dropWhile_nil, List.reverse_nil]
    exact hnil.symm
  | c :: rest =>
    have hc : (c == '/') = false := by
      by_contra hcc
      have hc' : c = '/' := by
        cases hcc' : c == '/' with
        | false => exact absurd hcc' hcc
        | true => exact eq_of_beq hcc'
      apply hsuf
      refine ⟨rest.reverse, ?_⟩
      have := congrArg List.reverse hrev
      simpa [hc'] using this.symm
    rw [List.dropWhile_cons, hc]
    simp
    have := congrArg List.reverse hrev
    simpa using this.symm

theorem C1_amended_helper_split {s : String} (h : endswith s "/" = true) :
    ∃ t : List Char, s.toList = t ++ ['/'] := by
  rw [endswith_iff] at h
  obtain ⟨t, ht⟩ := h
  exact ⟨t, ht.symm⟩

/-- If a list of characters ends in exactly one '/', dropping trailing
slashes removes exactly that one. -/
theorem dropTrailingSlashes_single {t : List Char} (ht : ¬ (['/'] <:+ t)) :
    dropTrailingSlashes ⟨t ++ ['/']⟩ = ⟨t⟩ := by
  apply string_eq_of_toList
  show (((t ++ ['/']).reverse).dropWhile (· == '/')).reverse = t
  rw [List.reverse_append]
  simp only [List.reverse_singleton, List.singleton_append, List.dropWhile_cons]
  simp only [beq_self_eq_true, if_true]
  match hrev : t.reverse with
  | [] =>
    have : t = [] := by simpa using congrArg List.reverse hrev
    simp [hrev, this]
  | c :: rest =>
    have hc : (c == '/') = false := by
      by_contra hcc
      have hc' : c = '/' := by
        cases hcc' : c == '/' with
        | false => exact absurd hcc' hcc
        | true => exact eq_of_beq hcc'
      apply ht
      refine ⟨rest.reverse, ?_⟩
      have := congrArg List.reverse hrev
      simpa [hc'] using this.symm
    rw [List.dropWhile_cons, hc]
    simp
    have := congrArg List.reverse hrev
    simpa using this.symm

/-- C1 counterexample input: a base URL already ending in two separators is
passed through unchanged, so the join point keeps both. -/
theorem C1_counterexample :
    assemble_url "http://host/api//" "sas/" = "http://host/api//sas/" ∧
    oneSeparatorJoin "http://host/api//" "sas/" = "http://host/api/sas/" ∧
    assemble_url "http://host/api//" "sas/" ≠
      oneSeparatorJoin "http://host/api//" "sas/" := by
  refine ⟨rfl, ?_, ?_⟩ <;> decide

/-- C1 (amended): for a base URL with no surrounding whitespace and at most
one trailing separator, `assemble_url` produces exactly one separator at the
join point (it agrees with the spec's one-separator join); in particular both
spec examples hold.  The whitespace and double-separator side conditions are
forced: `assemble_url` concatenates the unstripped base and never collapses
pre-existing repeated separators. -/
theorem C1_amended (url endpoint : String)
    (h1 : pyStrip url = url) (h2 : endswith url "//" = false) :
    assemble_url url endpoint = oneSeparatorJoin url endpoint := by
  unfold assemble_url
  rw [h1]
  by_cases hs : endswith url "/" = true
  · rw [if_pos hs]
    obtain ⟨t, hT⟩ := C1_amended_helper_split hs
    have hurl : url = ⟨t ++ ['/']⟩ := string_eq_of_toList hT
    have ht : ¬ (['/'] <:+ t) := by
      intro ⟨u, hu⟩
      have hdd : (['/', '/'] <:+ url.toList) := by
        refine ⟨u, ?_⟩
        rw [hT, ← hu]
        simp
      have he : endswith url "//" = true := by rw [endswith_iff]; exact hdd
      rw [h2] at he
      exact Bool.noConfusion he
    unfold oneSeparatorJoin
    rw [hurl, dropTrailingSlashes_single ht]
    apply string_eq_of_toList
    simp [toList_append]
  · have hs' : endswith url "/" = false := by
      cases h : endswith url "/" with
      | false => rfl
      | true => exact absurd h hs
    rw [if_neg (by simp [hs'])]
    unfold oneSeparatorJoin
    rw [dropTrailingSlashes_eq_self hs']

/-- Witness for C1_amended at the spec's concrete example. -/
theorem C1_witness :
    pyStrip "http://host/api" = "http://host/api" ∧
    endswith "http://host/api" "//" = false ∧
    assemble_url "http://host/api" "sas/" =
      oneSeparatorJoin "http://host/api" "sas/" := by
  refine ⟨?_, ?_, ?_⟩
  · decide
  · decide
  · exact C1_amended "http://host/api" "sas/" (by decide) (by decide)

/-- Values that can occur in a query-parameter dictionary of this module:
Python strings, ints, bools and None. -/
inductive PyVal where
  | str (s : String)
  | int (n : Int)
  | bool (b : Bool)
  | none

/-- JSON values, used for response bodies and request JSON bodies. -/
inductive Json where
  | null
  | bool (b : Bool)
  | num (n : Int)
  | str (s : String)
  | arr (elems : List Json)
  | obj (fields : List (String × Json))

/-- Query-parameter dictionaries are insertion-ordered association lists. -/
def Params : Type := List (String × PyVal)

/-- Python dict assignment `d[k] = v`: replace in place if the key exists,
otherwise append at the end (insertion order). -/
def dictSet (d : List (String × PyVal)) (k : String) (v : PyVal) :
    List (String × PyVal) :=
  if d.any (fun p => p.1 == k) then
    d.map (fun p => if p.1 == k then (k, v) else p)
  else
    d ++ [(k, v)]

/-- Whether a parameter dictionary contains a key. -/
def hasKey (d : List (String × PyVal)) (k : String) : Bool :=
  d.any (fun p => p.1 == k)

/-- The request an endpoint function hands to `make_request`: HTTP method,
assembled URL, query parameters, raw string body, JSON body, and whether the
default-server diagnostic notice was printed while building it. -/
structure Request where
  method : String
  url : String
  params : List (String × PyVal)
  data : String
  json_body : List Json
  notice : Bool

/-- Embedding of `execute_command` (src/sas9api.py lines 294-354), up to the
request it hands to `make_request`.  The workspace server port may be an int
or a str in Python and is passed through unchanged; it is modelled as a
string. -/
def execute_command (url command : String) (server_name : Option String)
    (repository_name : String) (server_url server_port : Option String)
    (log_enabled : Bool) : Request :=
  let initial_params :=
    if log_enabled then [("logEnabled", PyVal.str "true")]
    else [("logEnabled", PyVal.str "false")]
  match server_name with
  | some n =>
      ⟨"PUT", assemble_url url ("sas/servers/" ++ n ++ "/cmd"),
        dictSet initial_params "repositoryName" (PyVal.str repository_name),
        command, [], false⟩
  | Option.none =>
      match server_url, server_port with
      | some su, some sp =>
          ⟨"PUT", assemble_url url "sas/cmd",
            dictSet (dictSet initial_params "serverUrl" (PyVal.str su))
              "serverPort" (PyVal.str sp),
            command, [], false⟩
      | _, _ =>
          ⟨"PUT", assemble_url url "sas/cmd", initial_params, command, [], true⟩

/-- Embedding of `get_library_list` (src/sas9api.py lines 571-620). -/
def get_library_list (url : String) (server_name : Option String)
    (repository_name : String) (server_url server_port : Option String) :
    Request :=
  match server_name with
  | some n =>
      ⟨"GET", assemble_url url ("sas/servers/" ++ n ++ "/libraries"),
        dictSet [] "repositoryName" (PyVal.str repository_name), "", [], false⟩
  | Option.none =>
      match server_url, server_port with
      | some su, some sp =>
          ⟨"GET", assemble_url url "sas/libraries",
            dictSet (dictSet [] "serverUrl" (PyVal.str su))
              "serverPort" (PyVal.str sp), "", [], false⟩
      | _, _ =>
          ⟨"GET", assemble_url url "sas/libraries", [], "", [], true⟩

/-- Embedding of `get_library_info` (src/sas9api.py lines 623-687). -/
def get_library_info (url library_name : String) (server_name : Option String)
    (repository_name : String) (server_url server_port : Option String) :
    Request :=
  match server_name with
  | some n =>
      ⟨"GET",
        assemble_url url ("sas/servers/" ++ n ++ "/libraries/" ++ library_name),
        dictSet [] "repositoryName" (PyVal.str repository_name), "", [], false⟩
  | Option.none =>
      match server_url, server_port with
      | some su, some sp =>
          ⟨"GET", assemble_url url ("sas/libraries/" ++ library_name),
            dictSet (dictSet [] "serverUrl" (PyVal.str su))
              "serverPort" (PyVal.str sp), "", [], false⟩
      | _, _ =>
          ⟨"GET", assemble_url url ("sas/libraries/" ++ library_name),
            [], "", [], true⟩

/-- Embedding of `get_dataset_list` (src/sas9api.py lines 774-851).  In the
server-name branch the source rebinds `initial_params` to a fresh
one-entry dict rather than adding a key; mirrored here. -/
def get_dataset_list (url library_name : String) (server_name : Option String)
    (repository_name : String) (server_url server_port : Option String) :
    Request :=
  match server_name with
  | some n =>
      ⟨"GET",
        assemble_url url
          ("sas/servers/" ++ n ++ "/libraries/" ++ library_name ++ "/datasets"),
        [("repositoryName", PyVal.str repository_name)], "", [], false⟩
  | Option.none =>
      match server_url, server_port with
      | some su, some sp =>
          ⟨"GET",
            assemble_url url ("sas/libraries/" ++ library_name ++ "/datasets"),
            dictSet (dictSet [] "serverUrl" (PyVal.str su))
              "serverPort" (PyVal.str sp), "", [], false⟩
      | _, _ =>
          ⟨"GET",
            assemble_url url ("sas/libraries/" ++ library_name ++ "/datasets"),
            [], "", [], true⟩

/-- Embedding of `get_dataset_info` (src/sas9api.py lines 854-962). -/
def get_dataset_info (url library_name dataset_name : String)
    (server_name : Option String) (repository_name : String)
    (server_url server_port : Option String) : Request :=
  match server_name with
  | some n =>
      ⟨"GET",
        assemble_url url
          ("sas/servers/" ++ n ++ "/libraries/" ++ library_name ++
            "/datasets/" ++ dataset_name),
        [("repositoryName", PyVal.str repository_name)], "", [], false⟩
  | Option.none =>
      match server_url, server_port with
      | some su, some sp =>
          ⟨"GET",
            assemble_url url
              ("sas/libraries/" ++ library_name ++ "/datasets/" ++ dataset_name),
            dictSet (dictSet [] "serverUrl" (PyVal.str su))
              "serverPort" (PyVal.str sp), "", [], false⟩
      | _, _ =>
          ⟨"GET",
            assemble_url url
              ("sas/libraries/" ++ library_name ++ "/datasets/" ++ dataset_name),
            [], "", [], true⟩

/-- Embedding of `retrieve_data` (src/sas9api.py lines 965-1050). -/
def retrieve_data (url library_name dataset_name : String)
    (server_name : Option String) (repository_name : String)
    (server_url server_port : Option String) (limit offset : Int)
    (filter_ : Option String) : Request :=
  let params0 := [("limit", PyVal.int limit), ("offset", PyVal.int offset)]
  let params1 :=
    match filter_ with
    | some f => dictSet params0 "filter" (PyVal.str f)
    | Option.none => params0
  match server_name with
  | some n =>
      ⟨"GET",
        assemble_url url
          ("sas/servers/" ++ n ++ "/libraries/" ++ library_name ++
            "/datasets/" ++ dataset_name ++ "/data"),
        dictSet params1 "repositoryName" (PyVal.str repository_name),
        "", [], false⟩
  | Option.none =>
      match server_url, server_port with
      | some su, some sp =>
          ⟨"GET",
            assemble_url url
              ("sas/libraries/" ++ library_name ++ "/datasets/" ++
                dataset_name ++ "/data"),
            dictSet (dictSet params1 "serverUrl" (PyVal.str su))
              "serverPort" (PyVal.str sp), "", [], false⟩
      | _, _ =>
          ⟨"GET",
            assemble_url url
              ("sas/libraries/" ++ library_name ++ "/datasets/" ++
                dataset_name ++ "/data"),
            params1, "", [], true⟩

/-- Embedding of `insert_data` (src/sas9api.py lines 1053-1121). -/
def insert_data (url library_name dataset_name : String)
    (json_data : List Json) (server_name : Option String)
    (repository_name : String) (server_url server_port : Option String)
    (by_key : Option String) : Request :=
  let params0 :=
    match by_key with
    | some k => dictSet [] "byKey" (PyVal.str k)
    | Option.none => []
  match server_name with
  | some n =>
      ⟨"PUT",
        assemble_url url
          ("sas/servers/" ++ n ++ "/libraries/" ++ library_name ++
            "/datasets/" ++ dataset_name ++ "/data"),
        dictSet params0 "repositoryName" (PyVal.str repository_name),
        "", json_data, false⟩
  | Option.none =>
      match server_url, server_port with
      | some su, some sp =>
          ⟨"PUT",
            assemble_url url
              ("sas/libraries/" ++ library_name ++ "/datasets/" ++
                dataset_name ++ "/data"),
            dictSet (dictSet params0 "serverUrl" (PyVal.str su))
              "serverPort" (PyVal.str sp), "", json_data, false⟩
      | _, _ =>
          ⟨"PUT",
            assemble_url url
              ("sas/libraries/" ++ library_name ++ "/datasets/" ++
                dataset_name ++ "/data"),
            params0, "", json_data, true⟩

/-- Embedding of `replace_all_data` (src/sas9api.py lines 1124-1187). -/
def replace_all_data (url library_name dataset_name : String)
    (json_data : List Json) (server_name : Option String)
    (repository_name : String) (server_url server_port : Option String) :
    Request :=
  match server_name with
  | some n =>
      ⟨"POST",
        assemble_url url
          ("sas/servers/" ++ n ++ "/libraries/" ++ library_name ++
            "/datasets/" ++ dataset_name ++ "/data"),
        dictSet [] "repositoryName" (PyVal.str repository_name),
        "", json_data, false⟩
  | Option.none =>
      match server_url, server_port with
      | some su, some sp =>
          ⟨"POST",
            assemble_url url
              ("sas/libraries/" ++ library_name ++ "/datasets/" ++
                dataset_name ++ "/data"),
            dictSet (dictSet [] "serverUrl" (PyVal.str su))
              "serverPort" (PyVal.str sp), "", json_data, false⟩
      | _, _ =>
          ⟨"POST",
            assemble_url url
              ("sas/libraries/" ++ library_name ++ "/datasets/" ++
                dataset_name ++ "/data"),
            [], "", json_data, true⟩

/-- Embedding of `delete_dataset` (src/sas9api.py lines 1190-1242). -/
def delete_dataset (url library_name dataset_name : String)
    (server_name : Option String) (repository_name : String)
    (server_url server_port : Option String) : Request :=
  match server_name with
  | some n =>
      ⟨"DELETE",
        assemble_url url
          ("sas/servers/" ++ n ++ "/libraries/" ++ library_name ++
            "/datasets/" ++ dataset_name ++ "/data"),
        dictSet [] "repositoryName" (PyVal.str repository_name),
        "", [], false⟩
  | Option.none =>
      match server_url, server_port with
      | some su, some sp =>
          ⟨"DELETE",
            assemble_url url
              ("sas/libraries/" ++ library_name ++ "/datasets/" ++
                dataset_name ++ "/data"),
            dictSet (dictSet [] "serverUrl" (PyVal.str su))
              "serverPort" (PyVal.str sp), "", [], false⟩
      | _, _ =>
          ⟨"DELETE",
            assemble_url url
              ("sas/libraries/" ++ library_name ++ "/datasets/" ++
                dataset_name ++ "/data"),
            [], "", [], true⟩

/-- Embedding of `move_object` (src/sas9api.py lines 1345-1386).  The source
deliberately sends `destinationLocation` carrying the PublicType argument and
`publicType` carrying the destination folder (a compensating swap for a
remote-side defect, flagged by a comment in the source). -/
def move_object (url source_location source_name public_type
    destination_location repository_name : String) : Request :=
  ⟨"POST", assemble_url url "sas/meta/objects/move",
    [("sourceLocation", PyVal.str source_location),
     ("sourceName", PyVal.str source_name),
     ("destinationLocation", PyVal.str public_type),
     ("publicType", PyVal.str destination_location),
     ("repositoryName", PyVal.str repository_name)], "", [], false⟩

/-- Lift an optional Python string argument into a parameter value: `None`
stays `None`, a string is a string. -/
def optVal : Option String → PyVal
  | some s => PyVal.str s
  | Option.none => PyVal.none

/-- Embedding of `find_object` (src/sas9api.py lines 1246-1326): the full
parameter dict is built with every optional criterion present, `None`-valued
when unspecified, in the source's literal order. -/
def find_object (url : String) (repository_name : String)
    (location : Option String) (location_recursive : Bool)
    (object_id object_type public_type name_equals name_starts name_contains
      name_regex description_contains description_regex created_gt created_lt
      modified_gt modified_lt table_libref table_dbms : Option String)
    (include_associations include_permissions : Bool) : Request :=
  ⟨"GET", assemble_url url "sas/meta/search",
    [("repositoryName", PyVal.str repository_name),
     ("location", optVal location),
     ("locationRecursive", PyVal.bool location_recursive),
     ("objectID", optVal object_id),
     ("objectType", optVal object_type),
     ("publicType", optVal public_type),
     ("nameEquals", optVal name_equals),
     ("nameStarts", optVal name_starts),
     ("nameContains", optVal name_contains),
     ("nameRegex", optVal name_regex),
     ("descriptionContains", optVal description_contains),
     ("descriptionRegex", optVal description_regex),
     ("createdGt", optVal created_gt),
     ("createdLt", optVal created_lt),
     ("modifiedGt", optVal modified_gt),
     ("modifiedLt", optVal modified_lt),
     ("tableLibref", optVal table_libref),
     ("tableDBMS", optVal table_dbms),
     ("includeAssociations", PyVal.bool include_associations),
     ("includePermissions", PyVal.bool include_permissions)], "", [], false⟩

/-- The serialization the `requests` library applies to a params dict when
building the query string: entries whose value is `None` are omitted, strings
pass through, bools serialize as "True"/"False", ints by their decimal
representation. -/
def serializeParams : List (String × PyVal) → List (String × String)
  | [] => []
  | p :: rest =>
      match p.2 with
      | PyVal.none => serializeParams rest
      | PyVal.str s => (p.1, s) :: serializeParams rest
      | PyVal.bool b => (p.1, if b then "True" else "False") :: serializeParams rest
      | PyVal.int n => (p.1, toString n) :: serializeParams rest

/-- First-match lookup in a serialized (on-the-wire) parameter list. -/
def lookupStr (ps : List (String × String)) (k : String) : Option String :=
  match ps with
  | [] => Option.none
  | p :: rest => if p.1 == k then some p.2 else lookupStr rest k

/-- What `lookupStr` after serialization computes, phrased directly on the
parameter dict: skip `None`-valued entries, return the serialized value of
the first entry with the key. -/
def pvLookupS (ps : List (String × PyVal)) (k : String) : Option String :=
  match ps with
  | [] => Option.none
  | (k', v) :: rest =>
      match v with
      | PyVal.none => pvLookupS rest k
      | PyVal.str s => if k' == k then some s else pvLookupS rest k
      | PyVal.bool b =>
          if k' == k then some (if b then "True" else "False")
          else pvLookupS rest k
      | PyVal.int n => if k' == k then some (toString n) else pvLookupS rest k

/-- Outcome of the single HTTP call issued by `make_request`: either a
response arrived (status code plus body, `some j` when the body is valid
JSON decoding to `j`, `none` when it is not valid JSON), or no response was
received (connection/DNS/TLS error). -/
inductive HttpOutcome where
  | response (status : Nat) (body : Option Json)
  | transportError (msg : String)

/-- Console output produced by `make_request`. -/
inductive LogEntry where
  | httpError (status : Nat)
  | serverError (e : Json)
  | otherError (msg : String)
  | success

/-- How a Python call ends: a returned value (`none` models Python's implicit
`return None` fall-through) or an uncaught exception propagating to the
caller. -/
inductive PyResult where
  | ok (v : Option Json)
  | raised (exn : String)

/-- Result of the embedded `make_request`: the call outcome plus the console
log entries printed, in order. -/
structure MRResult where
  ret : PyResult
  logs : List LogEntry

/-- First-match lookup among the fields of a JSON object. -/
def lookupJson (fields : List (String × Json)) (k : String) : Option Json :=
  match fields with
  | [] => Option.none
  | f :: rest => if f.1 == k then some f.2 else lookupJson rest k

/-- Python subscripting `j[k]` on a decoded JSON value: field of an object,
`KeyError` for a missing key, `TypeError` when `j` is not an object. -/
def pyIndex (j : Json) (k : String) : Except String Json :=
  match j with
  | Json.obj fields =>
      match lookupJson fields k with
      | some v => Except.ok v
      | Option.none => Except.error "KeyError"
  | _ => Except.error "TypeError"

/-- Whether `response.raise_for_status()` raises `HTTPError`: exactly the
4xx and 5xx status codes. -/
def raiseForStatus (status : Nat) : Bool :=
  decide (400 ≤ status ∧ status < 600)

/-- Embedding of `make_request` (src/sas9api.py lines 78-120) as a function
of the HTTP outcome.  The try block covers only the request and
`raise_for_status()`:

* `HTTPError` handler: prints the HTTP error, then prints
  `response.json()['error']` - which itself raises (uncaught) when the body
  is not valid JSON, not an object, or lacks an `error` key;
* generic `except` handler: catches transport errors, prints, falls through;
* `else` branch (NOT protected by the try): prints Success, then evaluates
  `response.json()` and possibly `["payload"]` - any failure there raises
  out of the function uncaught. -/
def make_request (outcome : HttpOutcome) (only_payload : Bool) : MRResult :=
  match outcome with
  | HttpOutcome.transportError msg =>
      ⟨PyResult.ok Option.none, [LogEntry.otherError msg]⟩
  | HttpOutcome.response status body =>
      if raiseForStatus status then
        match body with
        | Option.none =>
            ⟨PyResult.raised "JSONDecodeError", [LogEntry.httpError status]⟩
        | some j =>
            match pyIndex j "error" with
            | Except.ok e =>
                ⟨PyResult.ok Option.none,
                  [LogEntry.httpError status, LogEntry.serverError e]⟩
            | Except.error exn =>
                ⟨PyResult.raised exn, [LogEntry.httpError status]⟩
      else
        match body with
        | Option.none =>
            ⟨PyResult.raised "JSONDecodeError", [LogEntry.success]⟩
        | some j =>
            if only_payload then
              match pyIndex j "payload" with
              | Except.ok p => ⟨PyResult.ok (some p), [LogEntry.success]⟩
              | Except.error exn => ⟨PyResult.raised exn, [LogEntry.success]⟩
            else
              ⟨PyResult.ok (some j), [LogEntry.success]⟩

/-- The module-level shared default argument objects of `make_request`
(`initial_params={}`, `data=""`, `json_data=[]`): one dict, one string, one
list object created once at function definition time and reused by every
call that omits the argument. -/
structure ModuleState where
  default_params : List (String × PyVal)
  default_data : String
  default_json : List Json

/-- The module state right after import: empty dict, empty string, empty
list. -/
def initState : ModuleState :=
  ⟨[], "", []⟩

/-- Arguments of one `make_request` call as supplied by a caller; `none`
means the argument was omitted so the shared default object is used. -/
structure CallArgs where
  initial_params : Option (List (String × PyVal))
  data : Option String
  json_data : Option (List Json)

/-- What one `make_request` call observes and leaves behind: the parameter
dict, raw body and JSON body actually bound inside the call, and the module
state after the call.  The body of `make_request` only passes these objects
to `requests.request` and never assigns into or mutates them, so the state
after the call is the state before it. -/
def make_request_call (st : ModuleState) (a : CallArgs) :
    (List (String × PyVal) × String × List Json) × ModuleState :=
  ((a.initial_params.getD st.default_params,
    a.data.getD st.default_data,
    a.json_data.getD st.default_json), st)

/-- Run a sequence of `make_request` calls from a module state. -/
def runCalls (st : ModuleState) (calls : List CallArgs) : ModuleState :=
  match calls with
  | [] => st
  | a :: rest => runCalls (make_request_call st a).2 rest

/-- A full `get_library_list` call including the shared defaults it uses:
the function always passes `initial_params` and `only_payload` explicitly
and omits `data` and `json_data`, so the issued request carries the module
state's shared default raw body and JSON body; the result is the response
handling of `make_request` on the outcome. -/
def get_library_list_call (st : ModuleState) (url : String)
    (server_name : Option String) (repository_name : String)
    (server_url server_port : Option String) (only_payload : Bool)
    (outcome : HttpOutcome) : Request × MRResult :=
  let r := get_library_list url server_name repository_name server_url server_port
  (⟨r.method, r.url, r.params, st.default_data, st.default_json, r.notice⟩,
    make_request outcome only_payload)

/-- A full `get_dataset_list` call, analogously. -/
def get_dataset_list_call (st : ModuleState) (url library_name : String)
    (server_name : Option String) (repository_name : String)
    (server_url server_port : Option String) (only_payload : Bool)
    (outcome : HttpOutcome) : Request × MRResult :=
  let r := get_dataset_list url library_name server_name repository_name
    server_url server_port
  (⟨r.method, r.url, r.params, st.default_data, st.default_json, r.notice⟩,
    make_request outcome only_payload)

theorem pvLookupS_nil (k : String) : pvLookupS [] k = Option.none := rfl

theorem pvLookupS_skip (k k' : String) (v : PyVal) (ps : List (String × PyVal))
    (h : (k' == k) = false) :
    pvLookupS ((k', v) :: ps) k = pvLookupS ps k := by
  cases v <;> simp [pvLookupS, h]

theorem pvLookupS_opt (k : String) (o : Option String)
    (ps : List (String × PyVal)) (h : pvLookupS ps k = Option.none) :
    pvLookupS ((k, optVal o) :: ps) k = o := by
  cases o <;> simp [pvLookupS, optVal, h]

theorem lookupStr_serializeParams (ps : List (String × PyVal)) (k : String) :
    lookupStr (serializeParams ps) k = pvLookupS ps k := by
  induction ps with
  | nil => rfl
  | cons p rest ih =>
      obtain ⟨k', v⟩ := p
      cases v <;> simp [serializeParams, lookupStr, pvLookupS, ih]

theorem runCalls_preserves (cs : List CallArgs) (st : ModuleState) :
    runCalls st cs = st := by
  induction cs with
  | nil => rfl
  | cons a rest ih => simpa [runCalls, make_request_call] using ih

/-- C2: for every target-scoped endpoint function, when server_name is given
together with server_url and server_port, the request path is scoped to
sas/servers/(name)/... with repositoryName attached, and serverUrl and
serverPort are not attached: the name wins over the url/port pair. -/
theorem C2_server_name_precedence
    (url command n rep su sp lib ds : String) (le : Bool) (lim off : Int)
    (filt byk : Option String) (jd : List Json) :
    ((execute_command url command (some n) rep (some su) (some sp) le).url
        = assemble_url url ("sas/servers/" ++ n ++ "/cmd")
      ∧ hasKey (execute_command url command (some n) rep (some su) (some sp) le).params
          "repositoryName" = true
      ∧ hasKey (execute_command url command (some n) rep (some su) (some sp) le).params
          "serverUrl" = false
      ∧ hasKey (execute_command url command (some n) rep (some su) (some sp) le).params
          "serverPort" = false)
    ∧ ((get_library_list url (some n) rep (some su) (some sp)).url
        = assemble_url url ("sas/servers/" ++ n ++ "/libraries")
      ∧ hasKey (get_library_list url (some n) rep (some su) (some sp)).params
          "repositoryName" = true
      ∧ hasKey (get_library_list url (some n) rep (some su) (some sp)).params
          "serverUrl" = false
      ∧ hasKey (get_library_list url (some n) rep (some su) (some sp)).params
          "serverPort" = false)
    ∧ ((get_library_info url lib (some n) rep (some su) (some sp)).url
        = assemble_url url ("sas/servers/" ++ n ++ "/libraries/" ++ lib)
      ∧ hasKey (get_library_info url lib (some n) rep (some su) (some sp)).params
          "repositoryName" = true
      ∧ hasKey (get_library_info url lib (some n) rep (some su) (some sp)).params
          "serverUrl" = false
      ∧ hasKey (get_library_info url lib (some n) rep (some su) (some sp)).params
          "serverPort" = false)
    ∧ ((get_dataset_list url lib (some n) rep (some su) (some sp)).url
        = assemble_url url ("sas/servers/" ++ n ++ "/libraries/" ++ lib ++ "/datasets")
      ∧ hasKey (get_dataset_list url lib (some n) rep (some su) (some sp)).params
          "repositoryName" = true
      ∧ hasKey (get_dataset_list url lib (some n) rep (some su) (some sp)).params
          "serverUrl" = false
      ∧ hasKey (get_dataset_list url lib (some n) rep (some su) (some sp)).params
          "serverPort" = false)
    ∧ ((get_dataset_info url lib ds (some n) rep (some su) (some sp)).url
        = assemble_url url
            ("sas/servers/" ++ n ++ "/libraries/" ++ lib ++ "/datasets/" ++ ds)
      ∧ hasKey (get_dataset_info url lib ds (some n) rep (some su) (some sp)).params
          "repositoryName" = true
      ∧ hasKey (get_dataset_info url lib ds (some n) rep (some su) (some sp)).params
          "serverUrl" = false
      ∧ hasKey (get_dataset_info url lib ds (some n) rep (some su) (some sp)).params
          "serverPort" = false)
    ∧ ((retrieve_data url lib ds (some n) rep (some su) (some sp) lim off filt).url
        = assemble_url url
            ("sas/servers/" ++ n ++ "/libraries/" ++ lib ++ "/datasets/" ++ ds ++ "/data")
      ∧ hasKey (retrieve_data url lib ds (some n) rep (some su) (some sp) lim off filt).params
          "repositoryName" = true
      ∧ hasKey (retrieve_data url lib ds (some n) rep (some su) (some sp) lim off filt).params
          "serverUrl" = false
      ∧ hasKey (retrieve_data url lib ds (some n) rep (some su) (some sp) lim off filt).params
          "serverPort" = false)
    ∧ ((insert_data url lib ds jd (some n) rep (some su) (some sp) byk).url
        = assemble_url url
            ("sas/servers/" ++ n ++ "/libraries/" ++ lib ++ "/datasets/" ++ ds ++ "/data")
      ∧ hasKey (insert_data url lib ds jd (some n) rep (some su) (some sp) byk).params
          "repositoryName" = true
      ∧ hasKey (insert_data url lib ds jd (some n) rep (some su) (some sp) byk).params
          "serverUrl" = false
      ∧ hasKey (insert_data url lib ds jd (some n) rep (some su) (some sp) byk).params
          "serverPort" = false)
    ∧ ((replace_all_data url lib ds jd (some n) rep (some su) (some sp)).url
        = assemble_url url
            ("sas/servers/" ++ n ++ "/libraries/" ++ lib ++ "/datasets/" ++ ds ++ "/data")
      ∧ hasKey (replace_all_data url lib ds jd (some n) rep (some su) (some sp)).params
          "repositoryName" = true
      ∧ hasKey (replace_all_data url lib ds jd (some n) rep (some su) (some sp)).params
          "serverUrl" = false
      ∧ hasKey (replace_all_data url lib ds jd (some n) rep (some su) (some sp)).params
          "serverPort" = false)
    ∧ ((delete_dataset url lib ds (some n) rep (some su) (some sp)).url
        = assemble_url url
            ("sas/servers/" ++ n ++ "/libraries/" ++ lib ++ "/datasets/" ++ ds ++ "/data")
      ∧ hasKey (delete_dataset url lib ds (some n) rep (some su) (some sp)).params
          "repositoryName" = true
      ∧ hasKey (delete_dataset url lib ds (some n) rep (some su) (some sp)).params
          "serverUrl" = false
      ∧ hasKey (delete_dataset url lib ds (some n) rep (some su) (some sp)).params
          "serverPort" = false) := by
  cases le <;> cases filt <;> cases byk <;>
    exact ⟨⟨rfl, rfl, rfl, rfl⟩, ⟨rfl, rfl, rfl, rfl⟩, ⟨rfl, rfl, rfl, rfl⟩,
      ⟨rfl, rfl, rfl, rfl⟩, ⟨rfl, rfl, rfl, rfl⟩, ⟨rfl, rfl, rfl, rfl⟩,
      ⟨rfl, rfl, rfl, rfl⟩, ⟨rfl, rfl, rfl, rfl⟩, ⟨rfl, rfl, rfl, rfl⟩⟩

/-- C9: for every target-scoped endpoint function, when server_name is None
and only one of server_url and server_port is given, the call silently falls
through to the default-server branch: the request is identical to the one
built with neither given - unscoped path, no serverUrl or serverPort
parameter - and the diagnostic notice is emitted; the partial pair is
discarded without error. -/
theorem C9_partial_pair_falls_through
    (url command rep lib ds : String) (le : Bool) (lim off : Int)
    (filt byk : Option String) (jd : List Json) (su sp : Option String)
    (h : su.isSome ≠ sp.isSome) :
    (execute_command url command Option.none rep su sp le
        = execute_command url command Option.none rep Option.none Option.none le
      ∧ (execute_command url command Option.none rep su sp le).url
          = assemble_url url "sas/cmd"
      ∧ hasKey (execute_command url command Option.none rep su sp le).params
          "serverUrl" = false
      ∧ hasKey (execute_command url command Option.none rep su sp le).params
          "serverPort" = false
      ∧ (execute_command url command Option.none rep su sp le).notice = true)
    ∧ (get_library_list url Option.none rep su sp
        = get_library_list url Option.none rep Option.none Option.none
      ∧ (get_library_list url Option.none rep su sp).url
          = assemble_url url "sas/libraries"
      ∧ hasKey (get_library_list url Option.none rep su sp).params
          "serverUrl" = false
      ∧ hasKey (get_library_list url Option.none rep su sp).params
          "serverPort" = false
      ∧ (get_library_list url Option.none rep su sp).notice = true)
    ∧ (get_library_info url lib Option.none rep su sp
        = get_library_info url lib Option.none rep Option.none Option.none
      ∧ (get_library_info url lib Option.none rep su sp).url
          = assemble_url url ("sas/libraries/" ++ lib)
      ∧ hasKey (get_library_info url lib Option.none rep su sp).params
          "serverUrl" = false
      ∧ hasKey (get_library_info url lib Option.none rep su sp).params
          "serverPort" = false
      ∧ (get_library_info url lib Option.none rep su sp).notice = true)
    ∧ (get_dataset_list url lib Option.none rep su sp
        = get_dataset_list url lib Option.none rep Option.none Option.none
      ∧ (get_dataset_list url lib Option.none rep su sp).url
          = assemble_url url ("sas/libraries/" ++ lib ++ "/datasets")
      ∧ hasKey (get_dataset_list url lib Option.none rep su sp).params
          "serverUrl" = false
      ∧ hasKey (get_dataset_list url lib Option.none rep su sp).params
          "serverPort" = false
      ∧ (get_dataset_list url lib Option.none rep su sp).notice = true)
    ∧ (get_dataset_info url lib ds Option.none rep su sp
        = get_dataset_info url lib ds Option.none rep Option.none Option.none
      ∧ (get_dataset_info url lib ds Option.none rep su sp).url
          = assemble_url url ("sas/libraries/" ++ lib ++ "/datasets/" ++ ds)
      ∧ hasKey (get_dataset_info url lib ds Option.none rep su sp).params
          "serverUrl" = false
      ∧ hasKey (get_dataset_info url lib ds Option.none rep su sp).params
          "serverPort" = false
      ∧ (get_dataset_info url lib ds Option.none rep su sp).notice = true)
    ∧ (retrieve_data url lib ds Option.none rep su sp lim off filt
        = retrieve_data url lib ds Option.none rep Option.none Option.none lim off filt
      ∧ (retrieve_data url lib ds Option.none rep su sp lim off filt).url
          = assemble_url url ("sas/libraries/" ++ lib ++ "/datasets/" ++ ds ++ "/data")
      ∧ hasKey (retrieve_data url lib ds Option.none rep su sp lim off filt).params
          "serverUrl" = false
      ∧ hasKey (retrieve_data url lib ds Option.none rep su sp lim off filt).params
          "serverPort" = false
      ∧ (retrieve_data url lib ds Option.none rep su sp lim off filt).notice = true)
    ∧ (insert_data url lib ds jd Option.none rep su sp byk
        = insert_data url lib ds jd Option.none rep Option.none Option.none byk
      ∧ (insert_data url lib ds jd Option.none rep su sp byk).url
          = assemble_url url ("sas/libraries/" ++ lib ++ "/datasets/" ++ ds ++ "/data")
      ∧ hasKey (insert_data url lib ds jd Option.none rep su sp byk).params
          "serverUrl" = false
      ∧ hasKey (insert_data url lib ds jd Option.none rep su sp byk).params
          "serverPort" = false
      ∧ (insert_data url lib ds jd Option.none rep su sp byk).notice = true)
    ∧ (replace_all_data url lib ds jd Option.none rep su sp
        = replace_all_data url lib ds jd Option.none rep Option.none Option.none
      ∧ (replace_all_data url lib ds jd Option.none rep su sp).url
          = assemble_url url ("sas/libraries/" ++ lib ++ "/datasets/" ++ ds ++ "/data")
      ∧ hasKey (replace_all_data url lib ds jd Option.none rep su sp).params
          "serverUrl" = false
      ∧ hasKey (replace_all_data url lib ds jd Option.none rep su sp).params
          "serverPort" = false
      ∧ (replace_all_data url lib ds jd Option.none rep su sp).notice = true)
    ∧ (delete_dataset url lib ds Option.none rep su sp
        = delete_dataset url lib ds Option.none rep Option.none Option.none
      ∧ (delete_dataset url lib ds Option.none rep su sp).url
          = assemble_url url ("sas/libraries/" ++ lib ++ "/datasets/" ++ ds ++ "/data")
      ∧ hasKey (delete_dataset url lib ds Option.none rep su sp).params
          "serverUrl" = false
      ∧ hasKey (delete_dataset url lib ds Option.none rep su sp).params
          "serverPort" = false
      ∧ (delete_dataset url lib ds Option.none rep su sp).notice = true) := by
  rcases su with _ | u <;> rcases sp with _ | p
  · exact absurd rfl h
  · cases le <;> cases filt <;> cases byk <;>
      exact ⟨⟨rfl, rfl, rfl, rfl, rfl⟩, ⟨rfl, rfl, rfl, rfl, rfl⟩,
        ⟨rfl, rfl, rfl, rfl, rfl⟩, ⟨rfl, rfl, rfl, rfl, rfl⟩,
        ⟨rfl, rfl, rfl, rfl, rfl⟩, ⟨rfl, rfl, rfl, rfl, rfl⟩,
        ⟨rfl, rfl, rfl, rfl, rfl⟩, ⟨rfl, rfl, rfl, rfl, rfl⟩,
        ⟨rfl, rfl, rfl, rfl, rfl⟩⟩
  · cases le <;> cases filt <;> cases byk <;>
      exact ⟨⟨rfl, rfl, rfl, rfl, rfl⟩, ⟨rfl, rfl, rfl, rfl, rfl⟩,
        ⟨rfl, rfl, rfl, rfl, rfl⟩, ⟨rfl, rfl, rfl, rfl, rfl⟩,
        ⟨rfl, rfl, rfl, rfl, rfl⟩, ⟨rfl, rfl, rfl, rfl, rfl⟩,
        ⟨rfl, rfl, rfl, rfl, rfl⟩, ⟨rfl, rfl, rfl, rfl, rfl⟩,
        ⟨rfl, rfl, rfl, rfl, rfl⟩⟩
  · exact absurd rfl h

/-- Witness for C9_partial_pair_falls_through: server_url given, server_port
omitted; the library listing request equals the default-branch one. -/
theorem C9_witness :
    (some "http://wks" : Option String).isSome ≠ (Option.none : Option String).isSome ∧
    get_library_list "http://h/api" Option.none "Foundation" (some "http://wks") Option.none
      = get_library_list "http://h/api" Option.none "Foundation" Option.none Option.none :=
  ⟨by decide,
    (C9_partial_pair_falls_through "http://h/api" "cmd" "Foundation"
      "sashelp" "class" true 100 0 Option.none Option.none []
      (some "http://wks") Option.none (by decide)).2.1.1⟩

/-- C3: for every successful request whose body decodes to a JSON object
with a payload field, make_request returns the payload field when
only_payload is true and the full envelope when only_payload is false. -/
theorem C3_payload_truncation (status : Nat) (fields : List (String × Json))
    (v : Json) (h1 : 200 ≤ status) (h2 : status < 300)
    (hp : lookupJson fields "payload" = some v) :
    make_request (HttpOutcome.response status (some (Json.obj fields))) true
        = ⟨PyResult.ok (some v), [LogEntry.success]⟩ ∧
    make_request (HttpOutcome.response status (some (Json.obj fields))) false
        = ⟨PyResult.ok (some (Json.obj fields)), [LogEntry.success]⟩ := by
  have hrs : raiseForStatus status = false := by
    simp [raiseForStatus]
    omega
  constructor <;> simp [make_request, hrs, pyIndex, hp]

/-- Witness for C3_payload_truncation at the spec's fixed mock envelope. -/
theorem C3_witness :
    make_request (HttpOutcome.response 200 (some (Json.obj
        [("status", Json.num 200), ("error", Json.null),
         ("payload", Json.obj [("x", Json.num 1)])]))) true
      = ⟨PyResult.ok (some (Json.obj [("x", Json.num 1)])), [LogEntry.success]⟩ ∧
    make_request (HttpOutcome.response 200 (some (Json.obj
        [("status", Json.num 200), ("error", Json.null),
         ("payload", Json.obj [("x", Json.num 1)])]))) false
      = ⟨PyResult.ok (some (Json.obj
          [("status", Json.num 200), ("error", Json.null),
           ("payload", Json.obj [("x", Json.num 1)])])), [LogEntry.success]⟩ :=
  C3_payload_truncation 200
    [("status", Json.num 200), ("error", Json.null),
     ("payload", Json.obj [("x", Json.num 1)])]
    (Json.obj [("x", Json.num 1)]) (by decide) (by decide) rfl

/-- C4 counterexample: a 200 response whose body is not valid JSON makes the
unprotected else branch raise, so the malformed-response failure kind
propagates an exception instead of being caught and returning None. -/
theorem C4_counterexample :
    make_request (HttpOutcome.response 200 Option.none) false
        = ⟨PyResult.raised "JSONDecodeError", [LogEntry.success]⟩ ∧
    (make_request (HttpOutcome.response 200 Option.none) false).ret
        ≠ PyResult.ok Option.none :=
  ⟨rfl, fun hcontra => PyResult.noConfusion hcontra⟩

/-- C4 (amended): transport failures, and HTTP failures whose body is a JSON
object carrying an error field, are caught and logged and the function
returns None; but a malformed response (success status with a body that is
not valid JSON, or - under only_payload - a JSON object without a payload
field) propagates an exception uncaught, as does an HTTP failure whose body
does not parse to a JSON object with an error field. -/
theorem C4_amended (p : Bool) :
    (∀ msg, make_request (HttpOutcome.transportError msg) p
        = ⟨PyResult.ok Option.none, [LogEntry.otherError msg]⟩) ∧
    (∀ status j e, raiseForStatus status = true →
        pyIndex j "error" = Except.ok e →
        make_request (HttpOutcome.response status (some j)) p
            = ⟨PyResult.ok Option.none,
                [LogEntry.httpError status, LogEntry.serverError e]⟩) ∧
    (∀ status, raiseForStatus status = false →
        make_request (HttpOutcome.response status Option.none) p
            = ⟨PyResult.raised "JSONDecodeError", [LogEntry.success]⟩) ∧
    (∀ status j exn, raiseForStatus status = true →
        pyIndex j "error" = Except.error exn →
        make_request (HttpOutcome.response status (some j)) p
            = ⟨PyResult.raised exn, [LogEntry.httpError status]⟩) ∧
    (∀ status fields, raiseForStatus status = false →
        lookupJson fields "payload" = Option.none →
        make_request (HttpOutcome.response status (some (Json.obj fields))) true
            = ⟨PyResult.raised "KeyError", [LogEntry.success]⟩) := by
  refine ⟨fun msg => rfl, ?_, ?_, ?_, ?_⟩
  · intro status j e hrs he
    simp [make_request, hrs, he]
  · intro status hrs
    simp [make_request, hrs]
  · intro status j exn hrs he
    simp [make_request, hrs, he]
  · intro status fields hrs hp
    simp [make_request, hrs, pyIndex, hp]

/-- Witness for C4_amended: a refused connection is caught and returns None,
a 404 with a JSON error body is caught and returns None, and a 200 with an
invalid-JSON body raises. -/
theorem C4_witness :
    make_request (HttpOutcome.transportError "connection refused") false
      = ⟨PyResult.ok Option.none, [LogEntry.otherError "connection refused"]⟩ ∧
    make_request (HttpOutcome.response 404
        (some (Json.obj [("error", Json.str "nf")]))) false
      = ⟨PyResult.ok Option.none,
          [LogEntry.httpError 404, LogEntry.serverError (Json.str "nf")]⟩ ∧
    make_request (HttpOutcome.response 200 Option.none) true
      = ⟨PyResult.raised "JSONDecodeError", [LogEntry.success]⟩ :=
  ⟨(C4_amended false).1 "connection refused",
   (C4_amended false).2.1 404 (Json.obj [("error", Json.str "nf")])
     (Json.str "nf") (by decide) rfl,
   (C4_amended true).2.2.1 200 (by decide)⟩

/-- C5: every 4xx/5xx response is classified as a failure (the call never
returns a decoded value, and the HTTP error is logged); when its body parses
as a JSON object with an error field the server-provided message is the
error surfaced; a transport failure surfaces the transport-level error. -/
theorem C5_failure_classification (p : Bool) :
    (∀ status body, raiseForStatus status = true →
        (∀ j, (make_request (HttpOutcome.response status body) p).ret
            ≠ PyResult.ok (some j)) ∧
        LogEntry.httpError status
          ∈ (make_request (HttpOutcome.response status body) p).logs) ∧
    (∀ status fields e, raiseForStatus status = true →
        lookupJson fields "error" = some e →
        make_request (HttpOutcome.response status (some (Json.obj fields))) p
            = ⟨PyResult.ok Option.none,
                [LogEntry.httpError status, LogEntry.serverError e]⟩) ∧
    (∀ msg, make_request (HttpOutcome.transportError msg) p
        = ⟨PyResult.ok Option.none, [LogEntry.otherError msg]⟩) := by
  refine ⟨?_, ?_, fun msg => rfl⟩
  · intro status body hrs
    cases body with
    | none =>
        exact ⟨fun j h => by simp [make_request, hrs] at h,
          by simp [make_request, hrs]⟩
    | some j =>
        cases he : pyIndex j "error" with
        | error exn =>
            exact ⟨fun j' h => by simp [make_request, hrs, he] at h,
              by simp [make_request, hrs, he]⟩
        | ok e =>
            exact ⟨fun j' h => by simp [make_request, hrs, he] at h,
              by simp [make_request, hrs, he]⟩
  · intro status fields e hrs he
    simp [make_request, hrs, pyIndex, he]

/-- Witness for C5_failure_classification: the spec's mocked 404 with body
carrying error "not found", and a mocked connection refusal. -/
theorem C5_witness :
    make_request (HttpOutcome.response 404
        (some (Json.obj [("error", Json.str "not found")]))) false
      = ⟨PyResult.ok Option.none,
          [LogEntry.httpError 404, LogEntry.serverError (Json.str "not found")]⟩ ∧
    make_request (HttpOutcome.transportError "connection refused") false
      = ⟨PyResult.ok Option.none, [LogEntry.otherError "connection refused"]⟩ :=
  ⟨(C5_failure_classification false).2.1 404
      [("error", Json.str "not found")] (Json.str "not found") (by decide) rfl,
   (C5_failure_classification false).2.2 "connection refused"⟩

/-- C6: move_object forwards sourceLocation and sourceName unchanged, but
destinationLocation carries the public_type argument and publicType carries
the destination_location argument (the compensating swap). -/
theorem C6_move_object_swap (url sl sn pt dl rep : String) :
    (move_object url sl sn pt dl rep).params =
      [("sourceLocation", PyVal.str sl), ("sourceName", PyVal.str sn),
       ("destinationLocation", PyVal.str pt), ("publicType", PyVal.str dl),
       ("repositoryName", PyVal.str rep)] ∧
    lookupStr (serializeParams (move_object url sl sn pt dl rep).params)
        "sourceLocation" = some sl ∧
    lookupStr (serializeParams (move_object url sl sn pt dl rep).params)
        "sourceName" = some sn ∧
    lookupStr (serializeParams (move_object url sl sn pt dl rep).params)
        "destinationLocation" = some pt ∧
    lookupStr (serializeParams (move_object url sl sn pt dl rep).params)
        "publicType" = some dl :=
  ⟨rfl, rfl, rfl, rfl, rfl⟩

/-- C7: GET-based listing calls are deterministic and stateless - after any
two (possibly different) prior call histories, issuing the same listing call
with identical arguments against the same HTTP outcome yields equal results,
and the module state is still the initial one, so no retained client-side
state can make two runs differ. -/
theorem C7_idempotent_stateless (cs1 cs2 : List CallArgs) (url lib : String)
    (server_name : Option String) (rep : String) (su sp : Option String)
    (p : Bool) (outcome : HttpOutcome) :
    runCalls initState cs1 = initState ∧
    get_library_list_call (runCalls initState cs1) url server_name rep su sp p outcome
      = get_library_list_call (runCalls initState cs2) url server_name rep su sp p outcome ∧
    get_dataset_list_call (runCalls initState cs1) url lib server_name rep su sp p outcome
      = get_dataset_list_call (runCalls initState cs2) url lib server_name rep su sp p outcome := by
  refine ⟨runCalls_preserves cs1 initState, ?_, ?_⟩ <;>
    rw [runCalls_preserves, runCalls_preserves]

/-- One serialized query-string entry per optional criterion: nothing when
the argument is None, the key with the given value otherwise. -/
def optEntry (k : String) : Option String → List (String × String)
  | some s => [(k, s)]
  | Option.none => []

theorem serializeParams_str_cons (k s : String) (ps : List (String × PyVal)) :
    serializeParams ((k, PyVal.str s) :: ps) = (k, s) :: serializeParams ps := by
  simp [serializeParams]

theorem serializeParams_bool_cons (k : String) (b : Bool)
    (ps : List (String × PyVal)) :
    serializeParams ((k, PyVal.bool b) :: ps)
      = (k, if b then "True" else "False") :: serializeParams ps := by
  simp [serializeParams]

theorem serializeParams_opt_cons (k : String) (o : Option String)
    (ps : List (String × PyVal)) :
    serializeParams ((k, optVal o) :: ps) = optEntry k o ++ serializeParams ps := by
  cases o <;> simp [serializeParams, optVal, optEntry]

theorem serializeParams_nil : serializeParams [] = [] := rfl

/-- C8: the serialized query parameters of a find_object request contain an
entry for an optional filter criterion exactly when it was supplied (None
arguments are omitted from the wire rather than serialized as "None"), with
the supplied value, in the source's parameter order. -/
theorem C8_find_object_none_omitted (url rep : String)
    (location : Option String) (lr : Bool)
    (oid ot pt ne ns nc nr dc dr cg cl mg ml tl td : Option String)
    (ia ip : Bool) :
    serializeParams (find_object url rep location lr oid ot pt ne ns nc nr
        dc dr cg cl mg ml tl td ia ip).params
      = ("repositoryName", rep)
          :: (optEntry "location" location
            ++ ("locationRecursive", if lr then "True" else "False")
              :: (optEntry "objectID" oid ++ optEntry "objectType" ot
                ++ optEntry "publicType" pt ++ optEntry "nameEquals" ne
                ++ optEntry "nameStarts" ns ++ optEntry "nameContains" nc
                ++ optEntry "nameRegex" nr ++ optEntry "descriptionContains" dc
                ++ optEntry "descriptionRegex" dr ++ optEntry "createdGt" cg
                ++ optEntry "createdLt" cl ++ optEntry "modifiedGt" mg
                ++ optEntry "modifiedLt" ml ++ optEntry "tableLibref" tl
                ++ optEntry "tableDBMS" td
                ++ [("includeAssociations", if ia then "True" else "False"),
                    ("includePermissions", if ip then "True" else "False")])) := by
  simp [find_object, serializeParams_str_cons, serializeParams_bool_cons,
    serializeParams_opt_cons, serializeParams_nil, List.append_assoc]

/-- C10: make_request leaves its initial_params, data and json_data
arguments (and hence the module-level shared default objects) unchanged;
after any sequence of calls the module state equals the initial one, so a
call with omitted arguments still observes the empty dict, empty string and
empty list. -/
theorem C10_no_mutation_defaults (st : ModuleState) (a : CallArgs)
    (ps : List (String × PyVal)) (d : String) (jd : List Json)
    (cs : List CallArgs) :
    (make_request_call st a).2 = st ∧
    (make_request_call st ⟨some ps, some d, some jd⟩).1 = (ps, d, jd) ∧
    runCalls initState cs = initState ∧
    (make_request_call (runCalls initState cs)
        ⟨Option.none, Option.none, Option.none⟩).1 = ([], "", []) := by
  refine ⟨rfl, rfl, runCalls_preserves cs initState, ?_⟩
  rw [runCalls_preserves]
  rfl
